import Mathlib

/-!
Verification of the Nirvaana admin backend (FastAPI + MongoDB service in
`backend/server.py`, data model in `backend/models.py`).

Money amounts are embedded as exact rationals; Python's `round(x, 2)`
(round half to even) is embedded as `round2`.  Timestamps are abstracted as
natural-number seconds, document ids as strings, and each Mongo collection
as a list of records inside `Store`.  Handlers that raise `HTTPException`
are embedded as `Except ApiError` computations; a handler that would raise
an uncaught Python `TypeError` is embedded as the `unhandledTypeError`
error value.

The file is laid out as definitions first (rounding, data model, handler
embeddings, concrete stores used by witnesses and counterexamples) and then
all theorems.
-/

namespace Nirvaana

/-! ## Definitions: rounding -/

/-- Round half to even of a rational to an integer, as Python's builtin
`round` does on exact decimal values. -/
def roundHalfEven (c : ℚ) : ℤ :=
  if c - (⌊c⌋ : ℚ) < 1/2 then ⌊c⌋
  else if (1/2 : ℚ) < c - (⌊c⌋ : ℚ) then ⌊c⌋ + 1
  else if ⌊c⌋ % 2 = 0 then ⌊c⌋ else ⌊c⌋ + 1

/-- Python's `round(q, 2)`. -/
def round2 (q : ℚ) : ℚ := (roundHalfEven (q * 100) : ℚ) / 100

/-- Python's `round(q, 1)`. -/
def round1 (q : ℚ) : ℚ := (roundHalfEven (q * 10) : ℚ) / 10

/-! ## Definitions: data model (`backend/models.py`) -/

/-- Enum `PaymentReceivedBy` (`models.py`). -/
inductive PaymentReceivedBy
  | hotel
  | nirvaana
  deriving DecidableEq, Repr

/-- Document `ServiceEntry` (`models.py` class `ServiceEntry`), carrying its
Mongo document id. -/
structure ServiceEntry where
  id : String
  therapist_id : String
  property_id : String
  customer_name : String
  customer_phone : String
  therapy_type : String
  therapy_duration : String
  base_price : ℚ
  gst_amount : ℚ
  total_amount : ℚ
  payment_received_by : PaymentReceivedBy
  date : String
  time : String
  locked : Bool
  deriving DecidableEq, Repr

/-- Document `User` (`models.py` class `User`); `username` is an optional
alias queried by `login` and `request_otp` (`server.py` queries it even
though the pydantic model omits it).  `id` is the Mongo `_id` rendered as a
string. -/
structure User where
  id : String
  email : String
  username : Option String
  phone : String
  password_hash : String
  role : String
  full_name : String
  assigned_property_id : Option String
  status : String
  archived_at : Option Nat
  deriving DecidableEq, Repr

/-- Document `Property` (`models.py` class `Property`).
`revenue_share_percentage` is `Optional[float]` (only required for
`outside_property` ownership, null for owned properties). -/
structure Property where
  id : String
  hotel_name : String
  location : String
  gst_number : String
  ownership_type : String
  revenue_share_percentage : Option ℚ
  payment_cycle : String
  active : Bool
  status : String
  archived_at : Option Nat
  deriving DecidableEq, Repr

/-- Document `Therapist` (`models.py` class `Therapist`). -/
structure Therapist where
  user_id : String
  full_name : String
  phone : String
  email : String
  experience_years : ℚ
  assigned_property_id : String
  monthly_target : ℚ
  status : String
  archived_at : Option Nat
  deriving DecidableEq, Repr

/-- Document `Attendance` (`models.py` class `Attendance`). -/
structure Attendance where
  id : String
  therapist_id : String
  property_id : String
  date : String
  check_in_time : Option Nat
  check_out_time : Option Nat
  deriving DecidableEq, Repr

/-- Document `OTPRecord` (`models.py` class `OTPRecord`). -/
structure OTPRecord where
  email : String
  otp : String
  created_at : Nat
  expires_at : Nat
  used : Bool
  deriving DecidableEq, Repr

/-- The Mongo database: one list per collection used by the handlers the
claims touch. -/
structure Store where
  users : List User
  properties : List Property
  therapists : List Therapist
  attendance : List Attendance
  services : List ServiceEntry
  otp_records : List OTPRecord
  deriving DecidableEq, Repr

/-- Outcomes of `HTTPException` raised by the handlers, plus
`unhandledTypeError` for the uncaught Python `TypeError` that
`get_property_revenue` hits when `revenue_share_percentage` is `None`. -/
inductive ApiError
  | notFound (detail : String)
  | badRequest (detail : String)
  | unauthorized (detail : String)
  | forbidden (detail : String)
  | unhandledTypeError
  deriving DecidableEq, Repr

/-! ## Definitions: shared helpers -/

/-- The month key `f"{year}-{month:02d}"` used for `$regex` date bucketing
(`server.py` lines 648, 727, 849, 1020). -/
def monthKey (y m : Nat) : String :=
  toString y ++ "-" ++ (if m < 10 then "0" ++ toString m else toString m)

/-- Date filter `{"date": {"$regex": f"^{key}"}}`: the ISO date string starts with the
month key. -/
def inMonth (key d : String) : Bool := key.data.isPrefixOf d.data

/-- Mongo `update_one`: rewrite the first record matching the filter. -/
def updateFirst {α : Type} (p : α → Bool) (f : α → α) : List α → List α
  | [] => []
  | x :: xs => if p x then f x :: xs else x :: updateFirst p f xs

/-- Modelled from the spec: `auth.py` is not under `src/`; §4.1 specifies
`hash(password) -> hash` as standard salted one-way hashing with
`verify(password, hash)` succeeding exactly on the matching password. -/
def get_password_hash (p : String) : String := "hashed:" ++ p

/-- Modelled from the spec: `auth.py` `verify_password`. -/
def verify_password (p h : String) : Bool := get_password_hash p == h

/-- Modelled from the spec: `auth.py` `create_access_token` encodes email,
role and user id into a signed bearer token. -/
def createAccessToken (u : User) : String :=
  "token:" ++ u.email ++ ":" ++ u.role ++ ":" ++ u.id

/-! ## Definitions: service entry creation (`server.py` lines 516-583) -/

/-- GST amount computed at service-entry creation
(`server.py` line 528: `round(service_data.base_price * 0.18, 2)`). -/
def gstAmount (base : ℚ) : ℚ := round2 (base * (18/100))

/-- Total amount computed at service-entry creation
(`server.py` line 529: `round(service_data.base_price + gst_amount, 2)`). -/
def totalAmount (base : ℚ) : ℚ := round2 (base + gstAmount base)

/-- Handler `create_service_entry` (`server.py` lines 516-583): the stored document,
with GST and total derived from the base price exactly once. -/
def createServiceEntry (uid pname cn cp tt td : String) (base : ℚ)
    (prb : PaymentReceivedBy) (dt tm sid : String) : ServiceEntry :=
  { id := sid
    therapist_id := uid
    property_id := pname
    customer_name := cn
    customer_phone := cp
    therapy_type := tt
    therapy_duration := td
    base_price := base
    gst_amount := gstAmount base
    total_amount := totalAmount base
    payment_received_by := prb
    date := dt
    time := tm
    locked := true }

/-! ## Definitions: monthly incentive (`server.py` lines 633-669) -/

/-- Response shape of `get_my_incentive`. -/
structure IncentiveResult where
  target : ℚ
  threshold : ℚ
  actual_sales : ℚ
  progress_percentage : ℚ
  excess_amount : ℚ
  incentive_earned : ℚ
  deriving DecidableEq, Repr

/-- Sum `actual_sales = sum(s["base_price"] for s in services)` over the
therapist's service entries whose date carries the month's key
(`server.py` lines 646-651). -/
def actualSales (s : Store) (tid : String) (y m : Nat) : ℚ :=
  ((s.services.filter
      (fun sv => sv.therapist_id == tid && inMonth (monthKey y m) sv.date)).map
    (fun sv => sv.base_price)).sum

/-- Handler `get_my_incentive` (`server.py` lines 633-669): threshold is 90% of the
monthly target, incentive is 5% of sales in excess of the threshold;
progress/excess/incentive response fields are rounded to 2 decimals. -/
def getMyIncentive (s : Store) (uid : String) (y m : Nat) :
    Except ApiError IncentiveResult :=
  match s.therapists.find? (fun t => t.user_id == uid) with
  | none => .error (.notFound "Therapist not found")
  | some th =>
      let target := th.monthly_target
      let a := actualSales s uid y m
      let threshold := target * (9/10)
      let excess := if a > threshold then a - threshold else 0
      let incentive := if a > threshold then excess * (5/100) else 0
      .ok { target := target
            threshold := threshold
            actual_sales := a
            progress_percentage := round2 (if target > 0 then a / target * 100 else 0)
            excess_amount := round2 excess
            incentive_earned := round2 incentive }

/-! ## Definitions: property revenue settlement (`server.py` lines 709-755) -/

/-- Response shape of `get_property_revenue`. -/
structure RevenueResult where
  property_name : String
  month : Nat
  year : Nat
  revenue_share_percentage : ℚ
  total_base_sales : ℚ
  total_gst : ℚ
  hotel_share : ℚ
  nirvaana_share : ℚ
  hotel_received : ℚ
  nirvaana_received : ℚ
  settlement_balance : ℚ
  deriving DecidableEq, Repr

/-- The month's service entries for one property
(`server.py` lines 725-728). -/
def monthServices (s : Store) (pid : String) (y m : Nat) : List ServiceEntry :=
  s.services.filter
    (fun sv => sv.property_id == pid && inMonth (monthKey y m) sv.date)

/-- Field `total_base_sales` (`server.py` line 730). -/
def totalBaseSales (s : Store) (pid : String) (y m : Nat) : ℚ :=
  ((monthServices s pid y m).map (fun sv => sv.base_price)).sum

/-- Field `total_gst` (`server.py` line 731). -/
def totalGstOf (s : Store) (pid : String) (y m : Nat) : ℚ :=
  ((monthServices s pid y m).map (fun sv => sv.gst_amount)).sum

/-- Field `hotel_received` (`server.py` line 737). -/
def hotelReceived (s : Store) (pid : String) (y m : Nat) : ℚ :=
  (((monthServices s pid y m).filter
      (fun sv => sv.payment_received_by == PaymentReceivedBy.hotel)).map
    (fun sv => sv.total_amount)).sum

/-- Field `nirvaana_received` (`server.py` line 738): payments collected by the
business. -/
def nirvaanaReceived (s : Store) (pid : String) (y m : Nat) : ℚ :=
  (((monthServices s pid y m).filter
      (fun sv => sv.payment_received_by == PaymentReceivedBy.nirvaana)).map
    (fun sv => sv.total_amount)).sum

/-- Field `nirvaana_share = total_base_sales * (1 - revenue_share)`
(`server.py` line 735): the business's contractual share of base sales. -/
def nirvaanaShareOf (s : Store) (pid : String) (y m : Nat) (pct : ℚ) : ℚ :=
  totalBaseSales s pid y m * (1 - pct / 100)

/-- Field `hotel_share = total_base_sales * revenue_share` (`server.py` line 734). -/
def hotelShareOf (s : Store) (pid : String) (y m : Nat) (pct : ℚ) : ℚ :=
  totalBaseSales s pid y m * (pct / 100)

/-- Handler `get_property_revenue` (`server.py` lines 709-755).  When the stored
`revenue_share_percentage` is null the line
`revenue_share = property_data["revenue_share_percentage"] / 100` raises an
uncaught `TypeError` (`None / 100`), embedded as `unhandledTypeError`.
All response money fields are rounded to 2 decimals at the response. -/
def getPropertyRevenue (s : Store) (pid : String) (y m : Nat) :
    Except ApiError RevenueResult :=
  match s.properties.find? (fun p => p.id == pid) with
  | none => .error (.notFound "Property not found")
  | some p =>
      match p.revenue_share_percentage with
      | none => .error .unhandledTypeError
      | some pct =>
          .ok { property_name := p.hotel_name
                month := m
                year := y
                revenue_share_percentage := pct
                total_base_sales := round2 (totalBaseSales s pid y m)
                total_gst := round2 (totalGstOf s pid y m)
                hotel_share := round2 (hotelShareOf s pid y m pct)
                nirvaana_share := round2 (nirvaanaShareOf s pid y m pct)
                hotel_received := round2 (hotelReceived s pid y m)
                nirvaana_received := round2 (nirvaanaReceived s pid y m)
                settlement_balance :=
                  round2 (nirvaanaReceived s pid y m - nirvaanaShareOf s pid y m pct) }

/-! ## Definitions: archiving state machine (`server.py` lines 145-199,
282-342) -/

/-- Handler `delete_property` (`server.py` lines 145-178): archive the property by
id, then archive every therapist whose `assigned_property_id` equals the
property's `hotel_name` (the code matches the cascade by hotel name, not by
the property's id). -/
def deleteProperty (s : Store) (pid : String) (now : Nat) :
    Except ApiError (Store × String) :=
  match s.properties.find? (fun p => p.id == pid) with
  | none => .error (.notFound "Property not found")
  | some p =>
      let props := updateFirst (fun q => q.id == pid)
        (fun q => { q with status := "archived", active := false,
                           archived_at := some now }) s.properties
      let ths := s.therapists.map
        (fun t => if t.assigned_property_id == p.hotel_name then
            { t with status := "archived", archived_at := some now }
          else t)
      .ok ({ s with properties := props, therapists := ths },
        "Property archived successfully. Historical data preserved.")

/-- Handler `restore_property` (`server.py` lines 180-199): set the property back to
active and unset `archived_at`; no other collection is touched. -/
def restoreProperty (s : Store) (pid : String) :
    Except ApiError (Store × String) :=
  match s.properties.find? (fun p => p.id == pid) with
  | none => .error (.notFound "Property not found")
  | some _ =>
      let props := updateFirst (fun q => q.id == pid)
        (fun q => { q with status := "active", active := true,
                           archived_at := none }) s.properties
      .ok ({ s with properties := props }, "Property restored successfully")

/-- Handler `delete_therapist` (`server.py` lines 282-314): archive the therapist
profile by `user_id` and archive the linked user account (the code comment
says "prevent login"). -/
def deleteTherapist (s : Store) (tid : String) (now : Nat) :
    Except ApiError (Store × String) :=
  match s.therapists.find? (fun t => t.user_id == tid) with
  | none => .error (.notFound "Therapist not found")
  | some _ =>
      let ths := updateFirst (fun t => t.user_id == tid)
        (fun t => { t with status := "archived", archived_at := some now })
        s.therapists
      let us := updateFirst (fun u => u.id == tid)
        (fun u => { u with status := "archived", archived_at := some now })
        s.users
      .ok ({ s with therapists := ths, users := us },
        "Therapist archived successfully. Historical data preserved.")

/-! ## Definitions: login (`server.py` lines 66-94) -/

/-- Handler `login` (`server.py` lines 66-94): find one user by email OR username,
check the password hash, and mint a token.  There is no filter on the
user's lifecycle `status`. -/
def login (s : Store) (email password : String) : Except ApiError String :=
  match s.users.find?
      (fun u => u.email == email || u.username == some email) with
  | none => .error (.unauthorized "Invalid credentials")
  | some u =>
      if verify_password password u.password_hash then
        .ok (createAccessToken u)
      else .error (.unauthorized "Invalid credentials")

/-! ## Definitions: OTP flow (`server.py` lines 888-1000) -/

/-- Handler `request_otp` (`server.py` lines 888-941): resolve the identifier to a
user (email or username), require the `super_admin` role, then delete every
OTP row stored under the resolved user's email and insert one fresh record
expiring 10 minutes (600 seconds) later.  The randomly drawn 6-digit code
is a parameter. -/
def requestOtp (s : Store) (identifier otpCode : String) (now : Nat) :
    Except ApiError (Store × String) :=
  match s.users.find?
      (fun u => u.email == identifier || u.username == some identifier) with
  | none => .error (.notFound "User not found")
  | some u =>
      if u.role == "super_admin" then
        let ae := u.email
        let kept := s.otp_records.filter (fun r => r.email != ae)
        .ok ({ s with otp_records :=
                kept ++ [{ email := ae, otp := otpCode, created_at := now,
                           expires_at := now + 600, used := false }] }, ae)
      else
        .error (.forbidden "OTP password change is only available for admin users")

/-- Handler `verify_otp` (`server.py` lines 943-960): find an unused record matching
(email, otp), then fail if it is past its expiry. -/
def verifyOtp (s : Store) (email otp : String) (now : Nat) :
    Except ApiError Bool :=
  match s.otp_records.find?
      (fun r => r.email == email && r.otp == otp && r.used == false) with
  | none => .error (.badRequest "Invalid or expired OTP")
  | some r =>
      if now > r.expires_at then
        .error (.badRequest "OTP has expired. Please request a new one.")
      else .ok true

/-- Handler `change_password` (`server.py` lines 962-1000): re-validate the OTP as
`verify_otp` does, then validate the password length, then overwrite the
password hash of the user found by the OTP record's stored email, then mark
the matching OTP record used.  Every error is raised before any write. -/
def changePassword (s : Store) (email otp newPassword : String) (now : Nat) :
    Except ApiError Store :=
  match s.otp_records.find?
      (fun r => r.email == email && r.otp == otp && r.used == false) with
  | none => .error (.badRequest "Invalid or expired OTP")
  | some r =>
      if now > r.expires_at then
        .error (.badRequest "OTP has expired. Please request a new one.")
      else if newPassword.length < 6 then
        .error (.badRequest "Password must be at least 6 characters")
      else
        match s.users.find? (fun u => u.email == r.email) with
        | none => .error (.notFound "User not found")
        | some _ =>
            let us := updateFirst (fun u => u.email == r.email)
              (fun u => { u with password_hash := get_password_hash newPassword })
              s.users
            let os := updateFirst (fun q => q.email == r.email && q.otp == otp)
              (fun q => { q with used := true }) s.otp_records
            .ok { s with users := us, otp_records := os }

/-! ## Definitions: 6-month forecast (`server.py` lines 1003-1107) -/

/-- One monthly bucket of `monthly_data` (`server.py` lines 1029-1035):
summed base-price revenue and entry count. -/
structure MonthBucket where
  revenue : ℚ
  services : ℕ
  deriving DecidableEq, Repr

/-- A month's bucket built from the store (`server.py` lines 1022-1027). -/
def monthBucket (s : Store) (y m : Nat) : MonthBucket :=
  let svcs := s.services.filter (fun sv => inMonth (monthKey y m) sv.date)
  { revenue := (svcs.map (fun sv => sv.base_price)).sum
    services := svcs.length }

/-- The fixed weight sequence `[1, 1.5, 2, 2.5, 3, 3.5]`
(`server.py` line 1038). -/
def forecastWeights : List ℚ := [1, 3/2, 2, 5/2, 3, 7/2]

/-- Weighted moving average (`server.py` line 1052). -/
def weightedAvg (revenues : List ℚ) : ℚ :=
  (List.zipWith (fun r w => r * w) revenues forecastWeights).sum
    / forecastWeights.sum

/-- The regression x-coordinates `range(len(revenues))` as rationals. -/
def idxList (n : ℕ) : List ℚ := (List.range n).map (fun i => (i : ℚ))

/-- Ordinary least-squares slope (`server.py` lines 1055-1065), with the
code's 0 fallback when the denominator vanishes. -/
def slopeOf (revenues : List ℚ) : ℚ :=
  let n : ℚ := (revenues.length : ℚ)
  let xs := idxList revenues.length
  let sx := xs.sum
  let sy := revenues.sum
  let sxy := (List.zipWith (fun a b => a * b) xs revenues).sum
  let sx2 := (xs.map (fun a => a * a)).sum
  if n * sx2 - sx * sx ≠ 0 then (n * sxy - sx * sy) / (n * sx2 - sx * sx)
  else 0

/-- OLS intercept `(sum_y - slope * sum_x) / n` (`server.py` line 1066). -/
def interceptOf (revenues : List ℚ) : ℚ :=
  (revenues.sum - slopeOf revenues * (idxList revenues.length).sum)
    / (revenues.length : ℚ)

/-- Python `int()` truncation toward zero. -/
def pyInt (q : ℚ) : ℤ := if 0 ≤ q then ⌊q⌋ else -⌊-q⌋

/-- Python `np.mean(revenues) if revenues else 0` (`server.py` line 1081). -/
def meanOf (revenues : List ℚ) : ℚ :=
  if revenues.length = 0 then 0 else revenues.sum / (revenues.length : ℚ)

/-- Python `np.var(revenues) if len(revenues) > 1 else 0` (`server.py` line 1080):
population variance. -/
def varianceOf (revenues : List ℚ) : ℚ :=
  if 1 < revenues.length then
    ((revenues.map (fun r => (r - meanOf revenues) * (r - meanOf revenues))).sum)
      / (revenues.length : ℚ)
  else 0

/-- Confidence label (`server.py` lines 1080-1089).  The code compares the
coefficient of variation `sqrt(variance) / mean * 100` against 20 and 40;
with `variance ≥ 0` and `mean > 0` those comparisons are equivalent to the
square-free comparisons `10000·variance < 400·mean²` and
`10000·variance < 1600·mean²` used here (a rational-valued square root does
not exist, so the squared form is the faithful executable rendering).  When
the mean is not positive the code sets cv = 100, hence "low". -/
def confidenceOf (revenues : List ℚ) : String :=
  if 0 < meanOf revenues then
    if 10000 * varianceOf revenues < 400 * (meanOf revenues * meanOf revenues)
      then "high"
    else if 10000 * varianceOf revenues
        < 1600 * (meanOf revenues * meanOf revenues) then "medium"
    else "low"
  else "low"

/-- Response shape of `get_forecast` (forecast fields only; the echoed
`historical_data` is the input itself). -/
structure ForecastResult where
  predicted_revenue : ℚ
  predicted_services : ℤ
  weighted_avg_forecast : ℚ
  regression_forecast : ℚ
  trend : String
  growth_rate_percent : ℚ
  confidence : String
  method : String
  deriving DecidableEq, Repr

/-- Core of `get_forecast` (`server.py` lines 1037-1107), over the six monthly
buckets.  If total revenue is 0 the code short-circuits to
`insufficient_data` (that response carries no forecast fields; they are 0
here).  Otherwise: weighted average, OLS regression extrapolated to x = 6,
combined 60/40 when the regression forecast is positive, entry count scaled
by the clamped growth factor and truncated by `int()`, and the response
rounded at the response boundary. -/
def forecastCore (monthly : List MonthBucket) : ForecastResult :=
  let revenues := monthly.map (fun b => b.revenue)
  if revenues.sum = 0 then
    { predicted_revenue := 0
      predicted_services := 0
      weighted_avg_forecast := 0
      regression_forecast := 0
      trend := "stable"
      growth_rate_percent := 0
      confidence := "low"
      method := "insufficient_data" }
  else
    let n : ℚ := (revenues.length : ℚ)
    let slope := slopeOf revenues
    let rf := interceptOf revenues + slope * 6
    let wavg := weightedAvg revenues
    let combined := if rf > 0 then (6/10) * rf + (4/10) * wavg else wavg
    let avgServices : ℚ :=
      if monthly.length = 0 then 0
      else ((monthly.map (fun b => (b.services : ℚ))).sum) / (monthly.length : ℚ)
    let growth : ℚ :=
      1 + (if revenues.sum > 0 then slope / (revenues.sum / n) else 0)
    let psvc : ℤ := pyInt (avgServices * max (8/10) (min (3/2) growth))
    let mean : ℚ := revenues.sum / n
    { predicted_revenue := round2 (max 0 combined)
      predicted_services := max 0 psvc
      weighted_avg_forecast := round2 wavg
      regression_forecast := round2 (max 0 rf)
      trend := if slope > 0 then "growing"
        else if slope < 0 then "declining" else "stable"
      growth_rate_percent := round1 (if mean > 0 then slope / mean * 100 else 0)
      confidence := confidenceOf revenues
      method := "weighted_moving_average_with_regression" }

/-! ## Definitions: concrete stores for witnesses and counterexamples -/

/-- Concrete store for the C1 witness: one therapist with target 100 and a
single March 2025 service entry of base price 95. -/
def C1S : Store :=
  { users := []
    properties := []
    therapists := [{ user_id := "t1", full_name := "Asha", phone := "9",
                     email := "a@x", experience_years := 2,
                     assigned_property_id := "H", monthly_target := 100,
                     status := "active", archived_at := none }]
    attendance := []
    services := [createServiceEntry "t1" "H" "cust" "99" "swedish" "60" 95
      PaymentReceivedBy.hotel "2025-03-05" "10:00:00" "s1"]
    otp_records := [] }

/-- Concrete store for the C2 counterexample: a partner property with
revenue share 88.2001% and a March 2025 month where the business received
118 while its share is 117.999 — a genuinely positive difference of 0.001
that rounds to a settlement balance of 0. -/
def C2S : Store :=
  { users := []
    properties := [{ id := "p1", hotel_name := "Grand", location := "Goa",
                     gst_number := "G1", ownership_type := "outside_property",
                     revenue_share_percentage := some (882001/10000),
                     payment_cycle := "monthly", active := true,
                     status := "active", archived_at := none }]
    therapists := []
    attendance := []
    services :=
      [{ id := "s1", therapist_id := "t1", property_id := "p1",
         customer_name := "c1", customer_phone := "1",
         therapy_type := "swedish", therapy_duration := "60",
         base_price := 100, gst_amount := 18, total_amount := 118,
         payment_received_by := PaymentReceivedBy.nirvaana,
         date := "2025-03-05", time := "10:00:00", locked := true },
       { id := "s2", therapist_id := "t1", property_id := "p1",
         customer_name := "c2", customer_phone := "2",
         therapy_type := "deep", therapy_duration := "90",
         base_price := 900, gst_amount := 162, total_amount := 1062,
         payment_received_by := PaymentReceivedBy.hotel,
         date := "2025-03-06", time := "11:00:00", locked := true }]
    otp_records := [] }

/-- The response `get_property_revenue` returns on `C2S` for March 2025. -/
def C2res : RevenueResult :=
  { property_name := "Grand", month := 3, year := 2025,
    revenue_share_percentage := 882001/10000,
    total_base_sales := 1000, total_gst := 180,
    hotel_share := 882, nirvaana_share := 118,
    hotel_received := 1062, nirvaana_received := 118,
    settlement_balance := 0 }

/-- Concrete store for the C2 witness: share 80%, one nirvaana-collected
entry, so the business received 118 against a share of 20. -/
def C2W : Store :=
  { users := []
    properties := [{ id := "p1", hotel_name := "Palm", location := "Goa",
                     gst_number := "G2", ownership_type := "outside_property",
                     revenue_share_percentage := some 80,
                     payment_cycle := "monthly", active := true,
                     status := "active", archived_at := none }]
    therapists := []
    attendance := []
    services :=
      [{ id := "s1", therapist_id := "t1", property_id := "p1",
         customer_name := "c1", customer_phone := "1",
         therapy_type := "swedish", therapy_duration := "60",
         base_price := 100, gst_amount := 18, total_amount := 118,
         payment_received_by := PaymentReceivedBy.nirvaana,
         date := "2025-03-05", time := "10:00:00", locked := true }]
    otp_records := [] }

/-- The response `get_property_revenue` returns on `C2W` for March 2025. -/
def C2Wres : RevenueResult :=
  { property_name := "Palm", month := 3, year := 2025,
    revenue_share_percentage := 80,
    total_base_sales := 100, total_gst := 18,
    hotel_share := 80, nirvaana_share := 20,
    hotel_received := 0, nirvaana_received := 118,
    settlement_balance := 98 }

/-- Concrete store for the C5 witness: one active property with one
assigned active therapist, plus attendance and service history. -/
def C5S : Store :=
  { users := []
    properties := [{ id := "p1", hotel_name := "H", location := "Goa",
                     gst_number := "G1", ownership_type := "outside_property",
                     revenue_share_percentage := some 70,
                     payment_cycle := "monthly", active := true,
                     status := "active", archived_at := none }]
    therapists := [{ user_id := "t1", full_name := "Asha", phone := "9",
                     email := "a@x", experience_years := 2,
                     assigned_property_id := "H", monthly_target := 100,
                     status := "active", archived_at := none }]
    attendance := [{ id := "a1", therapist_id := "t1", property_id := "H",
                     date := "2025-03-05", check_in_time := some 10,
                     check_out_time := none }]
    services := [createServiceEntry "t1" "H" "cust" "99" "swedish" "60" 95
      PaymentReceivedBy.hotel "2025-03-05" "10:00:00" "s1"]
    otp_records := [] }

/-- The store after archiving property `p1` of `C5S` at time 7. -/
def C5S2 : Store :=
  { users := []
    properties := [{ id := "p1", hotel_name := "H", location := "Goa",
                     gst_number := "G1", ownership_type := "outside_property",
                     revenue_share_percentage := some 70,
                     payment_cycle := "monthly", active := false,
                     status := "archived", archived_at := some 7 }]
    therapists := [{ user_id := "t1", full_name := "Asha", phone := "9",
                     email := "a@x", experience_years := 2,
                     assigned_property_id := "H", monthly_target := 100,
                     status := "archived", archived_at := some 7 }]
    attendance := [{ id := "a1", therapist_id := "t1", property_id := "H",
                     date := "2025-03-05", check_in_time := some 10,
                     check_out_time := none }]
    services := [createServiceEntry "t1" "H" "cust" "99" "swedish" "60" 95
      PaymentReceivedBy.hotel "2025-03-05" "10:00:00" "s1"]
    otp_records := [] }

/-- Concrete store for the C6 witness: property `p1` archived at time 7
together with its cascaded therapist `t1` (the state `C5S2` reaches). -/
def C6S : Store := C5S2

/-- The store after restoring property `p1` of `C6S`: the property is back
to active, the therapist record untouched (still archived). -/
def C6S2 : Store :=
  { users := []
    properties := [{ id := "p1", hotel_name := "H", location := "Goa",
                     gst_number := "G1", ownership_type := "outside_property",
                     revenue_share_percentage := some 70,
                     payment_cycle := "monthly", active := true,
                     status := "active", archived_at := none }]
    therapists := [{ user_id := "t1", full_name := "Asha", phone := "9",
                     email := "a@x", experience_years := 2,
                     assigned_property_id := "H", monthly_target := 100,
                     status := "archived", archived_at := some 7 }]
    attendance := [{ id := "a1", therapist_id := "t1", property_id := "H",
                     date := "2025-03-05", check_in_time := some 10,
                     check_out_time := none }]
    services := [createServiceEntry "t1" "H" "cust" "99" "swedish" "60" 95
      PaymentReceivedBy.hotel "2025-03-05" "10:00:00" "s1"]
    otp_records := [] }

/-- Concrete store for C9: one active therapist user (id `u1`) with its
therapist profile, able to log in with password `pw`. -/
def C9S : Store :=
  { users := [{ id := "u1", email := "t@x", username := none, phone := "9",
                password_hash := get_password_hash "pw", role := "therapist",
                full_name := "Tara", assigned_property_id := some "H",
                status := "active", archived_at := none }]
    properties := []
    therapists := [{ user_id := "u1", full_name := "Tara", phone := "9",
                     email := "t@x", experience_years := 3,
                     assigned_property_id := "H", monthly_target := 0,
                     status := "active", archived_at := none }]
    attendance := []
    services := []
    otp_records := [] }

/-- The archived user record after `delete_therapist` runs on `C9S`. -/
def C9U2 : User :=
  { id := "u1", email := "t@x", username := none, phone := "9",
    password_hash := get_password_hash "pw", role := "therapist",
    full_name := "Tara", assigned_property_id := some "H",
    status := "archived", archived_at := some 5 }

/-- The store after archiving therapist `u1` of `C9S` at time 5. -/
def C9S2 : Store :=
  { users := [C9U2]
    properties := []
    therapists := [{ user_id := "u1", full_name := "Tara", phone := "9",
                     email := "t@x", experience_years := 3,
                     assigned_property_id := "H", monthly_target := 0,
                     status := "archived", archived_at := some 5 }]
    attendance := []
    services := []
    otp_records := [] }

/-- Admin user for the C7 witness. -/
def C7U : User :=
  { id := "u1", email := "a@b", username := none, phone := "9",
    password_hash := get_password_hash "old-pass", role := "super_admin",
    full_name := "Admin", assigned_property_id := none,
    status := "active", archived_at := none }

/-- The OTP record live before the second `request_otp` in the C7 witness. -/
def C7old : OTPRecord :=
  { email := "a@b", otp := "111111", created_at := 0, expires_at := 600,
    used := false }

/-- Concrete store for the C7 witness: one admin with a live OTP. -/
def C7S : Store :=
  { users := [C7U]
    properties := []
    therapists := []
    attendance := []
    services := []
    otp_records := [C7old] }

/-- The store after `request_otp` draws code 222222 at time 1000 on `C7S`:
the old record is deleted and one fresh record is live. -/
def C7S2 : Store :=
  { users := [C7U]
    properties := []
    therapists := []
    attendance := []
    services := []
    otp_records := [{ email := "a@b", otp := "222222", created_at := 1000,
                      expires_at := 1600, used := false }] }

/-- The OTP record consumed in the C8 witness. -/
def C8rec : OTPRecord :=
  { email := "a@b", otp := "123456", created_at := 0, expires_at := 600,
    used := false }

/-- Concrete store for the C8 witness: one admin with a live OTP. -/
def C8S : Store :=
  { users := [{ id := "u1", email := "a@b", username := none, phone := "9",
                password_hash := get_password_hash "old-pass",
                role := "super_admin", full_name := "Admin",
                assigned_property_id := none, status := "active",
                archived_at := none }]
    properties := []
    therapists := []
    attendance := []
    services := []
    otp_records := [C8rec] }

/-- The store after the successful `change_password` of the C8 witness:
the password hash is overwritten and the OTP record is marked used. -/
def C8S2 : Store :=
  { users := [{ id := "u1", email := "a@b", username := none, phone := "9",
                password_hash := get_password_hash "newpass",
                role := "super_admin", full_name := "Admin",
                assigned_property_id := none, status := "active",
                archived_at := none }]
    properties := []
    therapists := []
    attendance := []
    services := []
    otp_records := [{ email := "a@b", otp := "123456", created_at := 0,
                      expires_at := 600, used := true }] }

/-- Concrete store for the C10 witness: an owned property whose
`revenue_share_percentage` is null, as `models.py` permits. -/
def C10S : Store :=
  { users := []
    properties := [{ id := "p9", hotel_name := "Own", location := "Pune",
                     gst_number := "G9", ownership_type := "our_property",
                     revenue_share_percentage := none,
                     payment_cycle := "monthly", active := true,
                     status := "active", archived_at := none }]
    therapists := []
    attendance := []
    services := []
    otp_records := [] }

end Nirvaana

namespace Nirvaana

/-! ## Theorems: rounding helpers -/

theorem roundHalfEven_intCast (k : ℤ) : roundHalfEven (k : ℚ) = k := by
  simp [roundHalfEven]

theorem round2_int_div (k : ℤ) : round2 ((k : ℚ) / 100) = (k : ℚ) / 100 := by
  have h : ((k : ℚ) / 100) * 100 = (k : ℚ) := by
    field_simp
  rw [round2, h, roundHalfEven_intCast]

theorem round2_zero : round2 0 = 0 := by
  have h := round2_int_div 0
  simpa using h

theorem round2_exists_int (q : ℚ) : ∃ k : ℤ, round2 q = (k : ℚ) / 100 :=
  ⟨roundHalfEven (q * 100), rfl⟩

theorem roundHalfEven_pos {c : ℚ} (h : 1/2 < c) : 1 ≤ roundHalfEven c := by
  have hfl : (0 : ℤ) ≤ ⌊c⌋ := Int.floor_nonneg.mpr (by linarith)
  unfold roundHalfEven
  split_ifs with h1 h2 h3
  · have hq : (0 : ℚ) < (⌊c⌋ : ℚ) := by linarith
    have : (0 : ℤ) < ⌊c⌋ := by exact_mod_cast hq
    omega
  · omega
  · have heq : c - (⌊c⌋ : ℚ) = 1/2 := le_antisymm (not_lt.mp h2) (not_lt.mp h1)
    have hq : (0 : ℚ) < (⌊c⌋ : ℚ) := by linarith
    have : (0 : ℤ) < ⌊c⌋ := by exact_mod_cast hq
    omega
  · omega

theorem roundHalfEven_neg {c : ℚ} (h : c < -(1/2)) : roundHalfEven c ≤ -1 := by
  have hfl : (⌊c⌋ : ℚ) ≤ c := Int.floor_le c
  have hneg : (⌊c⌋ : ℚ) < -(1/2) := lt_of_le_of_lt hfl h
  have hle : ⌊c⌋ ≤ -1 := by
    by_contra hcon
    push_neg at hcon
    have h0 : (0 : ℤ) ≤ ⌊c⌋ := by omega
    have : (0 : ℚ) ≤ (⌊c⌋ : ℚ) := by exact_mod_cast h0
    linarith
  unfold roundHalfEven
  split_ifs with h1 h2 h3
  · exact hle
  · have hq : (⌊c⌋ : ℚ) < -1 := by linarith
    have : ⌊c⌋ < -1 := by exact_mod_cast hq
    omega
  · exact hle
  · have heq : c - (⌊c⌋ : ℚ) = 1/2 := le_antisymm (not_lt.mp h2) (not_lt.mp h1)
    have hq : (⌊c⌋ : ℚ) < -1 := by linarith
    have : ⌊c⌋ < -1 := by exact_mod_cast hq
    omega

theorem round2_pos {q : ℚ} (h : 1/200 < q) : 0 < round2 q := by
  have h1 : (1/2 : ℚ) < q * 100 := by linarith
  have h2 := roundHalfEven_pos h1
  have h3 : (1 : ℚ) ≤ (roundHalfEven (q * 100) : ℚ) := by exact_mod_cast h2
  rw [round2]
  positivity

theorem round2_neg {q : ℚ} (h : q < -(1/200)) : round2 q < 0 := by
  have h1 : q * 100 < -(1/2) := by linarith
  have h2 := roundHalfEven_neg h1
  have h3 : (roundHalfEven (q * 100) : ℚ) ≤ -1 := by exact_mod_cast h2
  rw [round2]
  have : (roundHalfEven (q * 100) : ℚ) / 100 ≤ (-1 : ℚ) / 100 := by
    apply div_le_div_of_nonneg_right h3
    norm_num
  linarith

/-! ## Theorems: list helpers -/

theorem find?_updateFirst {α : Type} (p : α → Bool) (f : α → α)
    (hf : ∀ a, p a = true → p (f a) = true) :
    ∀ (l : List α) (a : α), l.find? p = some a →
      (updateFirst p f l).find? p = some (f a) := by
  intro l
  induction l with
  | nil => intro a h; simp at h
  | cons x xs ih =>
      intro a h
      by_cases hx : p x = true
      · rw [List.find?_cons_of_pos _ hx] at h
        injection h with h
        subst h
        rw [updateFirst, if_pos hx, List.find?_cons_of_pos _ (hf _ hx)]
      · rw [List.find?_cons_of_neg _ (by simpa using hx)] at h
        rw [updateFirst, if_neg hx,
          List.find?_cons_of_neg _ (by simpa using hx)]
        exact ih a h

theorem hotel_beq_nirvaana :
    (PaymentReceivedBy.hotel == PaymentReceivedBy.nirvaana) = false := by
  decide

theorem nirvaana_beq_hotel :
    (PaymentReceivedBy.nirvaana == PaymentReceivedBy.hotel) = false := by
  decide

/-! ## Theorems: claim C1 -/

/-- Claim C1: with monthly target T > 0 and monthly actual sales A, the
incentive endpoint returns incentive 0 when A ≤ 0.9·T and
round((A − 0.9·T)·0.05, 2) when A > 0.9·T; when T = 0 the progress
percentage is 0 instead of a division by zero. -/
theorem C1_monthly_incentive (s : Store) (uid : String) (y m : Nat)
    (th : Therapist) (r : IncentiveResult)
    (hth : s.therapists.find? (fun t => t.user_id == uid) = some th)
    (hr : getMyIncentive s uid y m = .ok r) :
    (0 < th.monthly_target →
      (actualSales s uid y m ≤ (9/10) * th.monthly_target →
        r.incentive_earned = 0) ∧
      ((9/10) * th.monthly_target < actualSales s uid y m →
        r.incentive_earned =
          round2 ((actualSales s uid y m - (9/10) * th.monthly_target) * (5/100)))) ∧
    (th.monthly_target = 0 → r.progress_percentage = 0) := by
  rw [getMyIncentive, hth] at hr
  injection hr with hr
  subst hr
  constructor
  · intro _
    constructor
    · intro hle
      have hnot : ¬ actualSales s uid y m > th.monthly_target * (9/10) := by
        rw [mul_comm th.monthly_target (9/10)]
        exact not_lt.mpr hle
      simp only [if_neg hnot]
      exact round2_zero
    · intro hlt
      have hgt : actualSales s uid y m > th.monthly_target * (9/10) := by
        rw [mul_comm th.monthly_target (9/10)]
        exact hlt
      simp only [if_pos hgt]
      rw [mul_comm th.monthly_target (9/10)]
  · intro h0
    have hnot : ¬ th.monthly_target > 0 := by rw [h0]; exact lt_irrefl 0
    simp only [if_neg hnot]
    exact round2_zero

/-- Claim C1 witness: in `C1S` the sales 95 exceed the threshold 90, and the
theorem yields incentive round(5·0.05, 2) = 0.25. -/
theorem C1_monthly_incentive_witness :
    getMyIncentive C1S "t1" 2025 3 =
      .ok { target := 100, threshold := 90, actual_sales := 95,
            progress_percentage := 95, excess_amount := 5,
            incentive_earned := 1/4 } ∧
    (1/4 : ℚ) = round2 ((actualSales C1S "t1" 2025 3 - (9/10) * 100) * (5/100)) := by
  have hacc : actualSales C1S "t1" 2025 3 = 95 := by
    have hm : inMonth (monthKey 2025 3) "2025-03-05" = true := by decide
    simp [actualSales, C1S, createServiceEntry, hm]
  have hth : C1S.therapists.find? (fun t => t.user_id == "t1") =
      some { user_id := "t1", full_name := "Asha", phone := "9",
             email := "a@x", experience_years := 2,
             assigned_property_id := "H", monthly_target := 100,
             status := "active", archived_at := none } := by
    simp [C1S]
  have hok : getMyIncentive C1S "t1" 2025 3 =
      .ok { target := 100, threshold := 90, actual_sales := 95,
            progress_percentage := 95, excess_amount := 5,
            incentive_earned := 1/4 } := by
    rw [getMyIncentive, hth]
    simp only [hacc]
    norm_num [round2, roundHalfEven]
  refine ⟨hok, ?_⟩
  have h := ((C1_monthly_incentive C1S "t1" 2025 3 _ _ hth hok).1
    (by norm_num)).2 (by rw [hacc]; norm_num)
  rw [hacc] at h ⊢
  exact h

/-! ## Theorems: claim C3 -/

/-- Claim C3 counterexample: at base price B = 1/250 (0.004, a valid price
since the validator only requires B > 0) the stored values have
gst = 0 and total = 0, so total - B = -0.004 differs from gst. -/
theorem C3_gst_total_cex :
    (0 : ℚ) < 1/250 ∧
    ((createServiceEntry "t1" "H" "c" "p" "swedish" "60" (1/250)
        PaymentReceivedBy.hotel "2025-03-05" "10:00:00" "s1").total_amount
      - (1/250 : ℚ)
      ≠ (createServiceEntry "t1" "H" "c" "p" "swedish" "60" (1/250)
        PaymentReceivedBy.hotel "2025-03-05" "10:00:00" "s1").gst_amount) := by
  constructor
  · norm_num
  · norm_num [createServiceEntry, totalAmount, gstAmount, round2, roundHalfEven]

/-- Claim C3 (amended): for every base price B > 0 with at most two decimal
places (B = k/100 for a positive integer k), service-entry creation stores
gst = round(B*0.18, 2) and total = round(B + gst, 2); for such B the second
rounding is the identity, so total = B + gst and total - B = gst exactly. -/
theorem C3_gst_total (k : ℤ) (hk : 0 < k)
    (uid pname cn cp tt td dt tm sid : String) (prb : PaymentReceivedBy) :
    (createServiceEntry uid pname cn cp tt td ((k : ℚ)/100) prb dt tm sid).gst_amount
      = round2 (((k : ℚ)/100) * (18/100)) ∧
    (createServiceEntry uid pname cn cp tt td ((k : ℚ)/100) prb dt tm sid).total_amount
      = (k : ℚ)/100
        + (createServiceEntry uid pname cn cp tt td ((k : ℚ)/100) prb dt tm sid).gst_amount ∧
    (createServiceEntry uid pname cn cp tt td ((k : ℚ)/100) prb dt tm sid).total_amount
      - (k : ℚ)/100
      = (createServiceEntry uid pname cn cp tt td ((k : ℚ)/100) prb dt tm sid).gst_amount := by
  obtain ⟨j, hj⟩ := round2_exists_int (((k : ℚ)/100) * (18/100))
  have hgst : gstAmount ((k : ℚ)/100) = (j : ℚ)/100 := hj
  have hsum : (k : ℚ)/100 + gstAmount ((k : ℚ)/100) = ((k + j : ℤ) : ℚ)/100 := by
    rw [hgst]
    push_cast
    ring
  have htot : totalAmount ((k : ℚ)/100) = (k : ℚ)/100 + gstAmount ((k : ℚ)/100) := by
    rw [totalAmount, hsum, round2_int_div]
  refine ⟨rfl, htot, ?_⟩
  show totalAmount ((k : ℚ)/100) - (k : ℚ)/100 = gstAmount ((k : ℚ)/100)
  rw [htot]
  ring

/-- Claim C3 witness: at B = 1 (k = 100) the amended theorem applies and
gives total - B = gst for the concretely created entry. -/
theorem C3_gst_total_witness :
    (createServiceEntry "t1" "H" "c" "p" "swedish" "60" (((100 : ℤ) : ℚ)/100)
        PaymentReceivedBy.hotel "2025-03-05" "10:00:00" "s1").total_amount
      - ((100 : ℤ) : ℚ)/100
      = (createServiceEntry "t1" "H" "c" "p" "swedish" "60" (((100 : ℤ) : ℚ)/100)
        PaymentReceivedBy.hotel "2025-03-05" "10:00:00" "s1").gst_amount :=
  (C3_gst_total 100 (by norm_num) "t1" "H" "c" "p" "swedish" "60"
    "2025-03-05" "10:00:00" "s1" PaymentReceivedBy.hotel).2.2

/-! ## Theorems: claim C2 -/

/-- Claim C2 counterexample: on `C2S` the business received 118 while its
share is 117.999, yet the returned `settlement_balance` is 0 — not
positive — because the response rounds the 0.001 difference away. -/
theorem C2_settlement_cex :
    nirvaanaShareOf C2S "p1" 2025 3 (882001/10000)
      < nirvaanaReceived C2S "p1" 2025 3 ∧
    getPropertyRevenue C2S "p1" 2025 3 = .ok C2res ∧
    ¬ 0 < C2res.settlement_balance := by
  have hm1 : inMonth (monthKey 2025 3) "2025-03-05" = true := by decide
  have hm2 : inMonth (monthKey 2025 3) "2025-03-06" = true := by decide
  have hms : monthServices C2S "p1" 2025 3 = C2S.services := by
    simp [monthServices, C2S, hm1, hm2]
  have hbase : totalBaseSales C2S "p1" 2025 3 = 1000 := by
    rw [totalBaseSales, hms]; norm_num [C2S]
  have hrec : nirvaanaReceived C2S "p1" 2025 3 = 118 := by
    rw [nirvaanaReceived, hms]; norm_num [C2S, hotel_beq_nirvaana]
  have hsh : nirvaanaShareOf C2S "p1" 2025 3 (882001/10000) = 117999/1000 := by
    rw [nirvaanaShareOf, hbase]; norm_num
  refine ⟨?_, ?_, ?_⟩
  · rw [hrec, hsh]; norm_num
  · have hp : C2S.properties.find? (fun q => q.id == "p1") =
        some { id := "p1", hotel_name := "Grand", location := "Goa",
               gst_number := "G1", ownership_type := "outside_property",
               revenue_share_percentage := some (882001/10000),
               payment_cycle := "monthly", active := true,
               status := "active", archived_at := none } := by
      simp [C2S]
    have hgst : totalGstOf C2S "p1" 2025 3 = 180 := by
      rw [totalGstOf, hms]; norm_num [C2S]
    have hhrec : hotelReceived C2S "p1" 2025 3 = 1062 := by
      rw [hotelReceived, hms]; norm_num [C2S, nirvaana_beq_hotel]
    have hhsh : hotelShareOf C2S "p1" 2025 3 (882001/10000) = 882001/1000 := by
      rw [hotelShareOf, hbase]; norm_num
    simp only [getPropertyRevenue, hp]
    rw [hbase, hgst, hhsh, hsh, hhrec, hrec]
    norm_num [C2res, round2, roundHalfEven]
  · norm_num [C2res]

/-- Claim C2 (amended): the settlement endpoint returns
`settlement_balance = round(business_received − business_share, 2)`; the
balance is positive whenever the business received more than its share by
over half a cent (1/200) and negative whenever it received less by over
half a cent.  (The unqualified sign claim fails: a difference below half a
cent rounds to 0, see the counterexample.) -/
theorem C2_settlement (s : Store) (pid : String) (y m : Nat) (p : Property)
    (pct : ℚ) (r : RevenueResult)
    (hp : s.properties.find? (fun q => q.id == pid) = some p)
    (hpct : p.revenue_share_percentage = some pct)
    (hr : getPropertyRevenue s pid y m = .ok r) :
    r.settlement_balance =
      round2 (nirvaanaReceived s pid y m - nirvaanaShareOf s pid y m pct) ∧
    (1/200 < nirvaanaReceived s pid y m - nirvaanaShareOf s pid y m pct →
      0 < r.settlement_balance) ∧
    (nirvaanaReceived s pid y m - nirvaanaShareOf s pid y m pct < -(1/200) →
      r.settlement_balance < 0) := by
  simp only [getPropertyRevenue, hp, hpct] at hr
  injection hr with hr
  subst hr
  exact ⟨rfl, fun h => round2_pos h, fun h => round2_neg h⟩

/-- Claim C2 witness: on `C2W` the business received 118 against a share of
20, and the amended theorem yields a positive settlement balance (98). -/
theorem C2_settlement_witness :
    getPropertyRevenue C2W "p1" 2025 3 = .ok C2Wres ∧
    0 < C2Wres.settlement_balance := by
  have hm1 : inMonth (monthKey 2025 3) "2025-03-05" = true := by decide
  have hms : monthServices C2W "p1" 2025 3 = C2W.services := by
    simp [monthServices, C2W, hm1]
  have hbase : totalBaseSales C2W "p1" 2025 3 = 100 := by
    rw [totalBaseSales, hms]; norm_num [C2W]
  have hrec : nirvaanaReceived C2W "p1" 2025 3 = 118 := by
    rw [nirvaanaReceived, hms]; norm_num [C2W]
  have hhrec : hotelReceived C2W "p1" 2025 3 = 0 := by
    rw [hotelReceived, hms]; norm_num [C2W, nirvaana_beq_hotel]
  have hsh : nirvaanaShareOf C2W "p1" 2025 3 80 = 20 := by
    rw [nirvaanaShareOf, hbase]; norm_num
  have hp : C2W.properties.find? (fun q => q.id == "p1") =
      some { id := "p1", hotel_name := "Palm", location := "Goa",
             gst_number := "G2", ownership_type := "outside_property",
             revenue_share_percentage := some 80,
             payment_cycle := "monthly", active := true,
             status := "active", archived_at := none } := by
    simp [C2W]
  have hok : getPropertyRevenue C2W "p1" 2025 3 = .ok C2Wres := by
    have hgst : totalGstOf C2W "p1" 2025 3 = 18 := by
      rw [totalGstOf, hms]; norm_num [C2W]
    have hhsh : hotelShareOf C2W "p1" 2025 3 80 = 80 := by
      rw [hotelShareOf, hbase]; norm_num
    simp only [getPropertyRevenue, hp]
    rw [hbase, hgst, hhsh, hsh, hhrec, hrec]
    norm_num [C2Wres, round2, roundHalfEven]
  refine ⟨hok, ?_⟩
  exact (C2_settlement C2W "p1" 2025 3 _ 80 C2Wres hp rfl hok).2.1
    (by rw [hrec, hsh]; norm_num)

/-! ## Theorems: claim C10 -/

/-- Claim C10: for a property whose `revenue_share_percentage` is null (an
owned property), `get_property_revenue` neither returns a settlement result
nor a defined HTTP error: the `None / 100` division raises an uncaught
`TypeError`, embedded as the reachable `unhandledTypeError` branch. -/
theorem C10_owned_property_revenue (s : Store) (pid : String) (y m : Nat)
    (p : Property)
    (hp : s.properties.find? (fun q => q.id == pid) = some p)
    (hnull : p.revenue_share_percentage = none) :
    getPropertyRevenue s pid y m = .error .unhandledTypeError := by
  simp only [getPropertyRevenue, hp, hnull]

/-! ## Theorems: claim C5 -/

/-- Claim C5: archiving a property sets its status to archived, clears its
active flag and stamps the archival time; every therapist assigned to it
(matched by the property's hotel name, which is how `delete_property`
identifies assignment) transitions to archived with its own timestamp; and
the attendance and service collections are untouched, so every historical
record stays retrievable by id. -/
theorem C5_archive_property (s : Store) (pid : String) (now : Nat)
    (p : Property) (s' : Store) (msg : String)
    (hp : s.properties.find? (fun q => q.id == pid) = some p)
    (h : deleteProperty s pid now = .ok (s', msg)) :
    (∃ p', s'.properties.find? (fun q => q.id == pid) = some p' ∧
       p'.status = "archived" ∧ p'.active = false ∧
       p'.archived_at = some now) ∧
    (∀ t ∈ s.therapists, t.assigned_property_id = p.hotel_name →
       ∃ t', t' ∈ s'.therapists ∧ t'.user_id = t.user_id ∧
         t'.status = "archived" ∧ t'.archived_at = some now) ∧
    s'.attendance = s.attendance ∧ s'.services = s.services ∧
    (∀ aid, s'.attendance.find? (fun a => a.id == aid)
       = s.attendance.find? (fun a => a.id == aid)) ∧
    (∀ svid, s'.services.find? (fun sv => sv.id == svid)
       = s.services.find? (fun sv => sv.id == svid)) := by
  simp only [deleteProperty, hp] at h
  injection h with h
  injection h with h1 h2
  subst h1
  refine ⟨?_, ?_, rfl, rfl, fun _ => rfl, fun _ => rfl⟩
  · exact ⟨_, find?_updateFirst (fun q => q.id == pid)
      (fun q => { q with status := "archived", active := false,
                         archived_at := some now })
      (fun a ha => ha) s.properties p hp, rfl, rfl, rfl⟩
  · intro t ht hmatch
    have hc : (t.assigned_property_id == p.hotel_name) = true := by
      simp [hmatch]
    refine ⟨_, List.mem_map_of_mem _ ht, ?_, ?_, ?_⟩ <;> simp [hc]

/-- Claim C5 witness: archiving `p1` in `C5S` at time 7 yields `C5S2` and
(via the theorem) leaves the attendance collection untouched. -/
theorem C5_archive_property_witness :
    deleteProperty C5S "p1" 7 =
      .ok (C5S2, "Property archived successfully. Historical data preserved.") ∧
    C5S2.attendance = C5S.attendance := by
  have hp : C5S.properties.find? (fun q => q.id == "p1") =
      some { id := "p1", hotel_name := "H", location := "Goa",
             gst_number := "G1", ownership_type := "outside_property",
             revenue_share_percentage := some 70,
             payment_cycle := "monthly", active := true,
             status := "active", archived_at := none } := by
    simp [C5S]
  have hok : deleteProperty C5S "p1" 7 =
      .ok (C5S2, "Property archived successfully. Historical data preserved.") := by
    simp only [deleteProperty, hp]
    norm_num [C5S, C5S2, updateFirst]
  exact ⟨hok,
    (C5_archive_property C5S "p1" 7 _ C5S2 _ hp hok).2.2.1⟩

/-! ## Theorems: claim C6 -/

/-- Claim C6: restoring an archived property sets it back to active and
clears its archival timestamp while leaving the therapists collection
completely unchanged — in particular a therapist archived by the earlier
cascade stays archived. -/
theorem C6_restore_property (s : Store) (pid : String) (p : Property)
    (s' : Store) (msg : String)
    (hp : s.properties.find? (fun q => q.id == pid) = some p)
    (h : restoreProperty s pid = .ok (s', msg)) :
    (∃ p', s'.properties.find? (fun q => q.id == pid) = some p' ∧
       p'.status = "active" ∧ p'.active = true ∧ p'.archived_at = none) ∧
    s'.therapists = s.therapists ∧
    (∀ t ∈ s.therapists, t.status = "archived" →
       t ∈ s'.therapists ∧ t.status = "archived") := by
  simp only [restoreProperty, hp] at h
  injection h with h
  injection h with h1 h2
  subst h1
  refine ⟨?_, rfl, fun t ht hst => ⟨ht, hst⟩⟩
  exact ⟨_, find?_updateFirst (fun q => q.id == pid)
    (fun q => { q with status := "active", active := true,
                       archived_at := none })
    (fun a ha => ha) s.properties p hp, rfl, rfl, rfl⟩

/-- Claim C6 witness: restoring `p1` in `C6S` (the post-cascade state)
yields `C6S2`; the theorem gives that the therapist collection — including
the archived therapist `t1` — is untouched. -/
theorem C6_restore_property_witness :
    restoreProperty C6S "p1" = .ok (C6S2, "Property restored successfully") ∧
    C6S2.therapists = C6S.therapists := by
  have hp : C6S.properties.find? (fun q => q.id == "p1") =
      some { id := "p1", hotel_name := "H", location := "Goa",
             gst_number := "G1", ownership_type := "outside_property",
             revenue_share_percentage := some 70,
             payment_cycle := "monthly", active := false,
             status := "archived", archived_at := some 7 } := by
    simp [C6S, C5S2]
  have hok : restoreProperty C6S "p1" =
      .ok (C6S2, "Property restored successfully") := by
    simp only [restoreProperty, hp]
    norm_num [C6S, C5S2, C6S2, updateFirst]
  exact ⟨hok, (C6_restore_property C6S "p1" _ C6S2 _ hp hok).2.1⟩

/-! ## Theorems: claim C9 -/

/-- Claim C9 evaluation (code bug): archiving therapist `u1` archives the
linked user account, yet the archived account still logs in successfully
with its old credentials, because the `login` lookup filters only on
email/username and never on the lifecycle status.  The claim (and the
code's own comment "prevent login") says archived accounts are excluded
from authentication; the code returns a token. -/
theorem C9_archived_login_succeeds :
    deleteTherapist C9S "u1" 5 =
      .ok (C9S2, "Therapist archived successfully. Historical data preserved.") ∧
    C9S2.users = [C9U2] ∧
    C9U2.status = "archived" ∧
    login C9S2 "t@x" "pw" = .ok (createAccessToken C9U2) := by
  have hth : C9S.therapists.find? (fun t => t.user_id == "u1") =
      some { user_id := "u1", full_name := "Tara", phone := "9",
             email := "t@x", experience_years := 3,
             assigned_property_id := "H", monthly_target := 0,
             status := "active", archived_at := none } := by
    simp [C9S]
  refine ⟨?_, rfl, rfl, ?_⟩
  · simp only [deleteTherapist, hth]
    norm_num [C9S, C9S2, C9U2, updateFirst]
  · have hu : C9S2.users.find?
        (fun u => u.email == "t@x" || u.username == some "t@x") =
        some C9U2 := by
      simp [C9S2, C9U2]
    have hv : verify_password "pw" C9U2.password_hash = true := by
      simp [verify_password, C9U2, get_password_hash]
    simp [login, hu, hv]

/-! ## Theorems: claim C7 -/

theorem filter_email_ne (l : List OTPRecord) (ae e : String) (hne : e ≠ ae) :
    (l.filter (fun r => r.email != ae)).filter (fun r => r.email == e)
      = l.filter (fun r => r.email == e) := by
  induction l with
  | nil => rfl
  | cons x xs ih =>
      by_cases hx : x.email = ae
      · have h1 : (x.email != ae) = false := by simp [hx]
        have h2 : (x.email == e) = false := by
          rw [hx]
          exact beq_eq_false_iff_ne.mpr (Ne.symm hne)
        simp [List.filter_cons, h1, h2, ih]
      · have h1 : (x.email != ae) = true := by simp [hx]
        by_cases hp : x.email = e
        · have h2 : (x.email == e) = true := by simp [hp]
          simp [List.filter_cons, h1, h2, ih]
        · have h2 : (x.email == e) = false := by simp [hp]
          simp [List.filter_cons, h1, h2, ih]

/-- Claim C7: a successful `request_otp` resolves the identifier to the
user's canonical email, leaves exactly one OTP record (the fresh one) for
that email, leaves other emails' records untouched, preserves the
at-most-one-record-per-email invariant, and makes any previously stored
code for that email (other than the freshly drawn one) fail verification. -/
theorem C7_single_live_otp (s : Store) (ident code : String) (now : Nat)
    (u : User) (s' : Store) (ae : String)
    (hu : s.users.find?
      (fun v => v.email == ident || v.username == some ident) = some u)
    (h : requestOtp s ident code now = .ok (s', ae)) :
    ae = u.email ∧
    s'.otp_records.filter (fun r => r.email == u.email)
      = [{ email := u.email, otp := code, created_at := now,
           expires_at := now + 600, used := false }] ∧
    (∀ e, e ≠ u.email →
      s'.otp_records.filter (fun r => r.email == e)
        = s.otp_records.filter (fun r => r.email == e)) ∧
    (∀ e, (s.otp_records.filter (fun r => r.email == e)).length ≤ 1 →
      (s'.otp_records.filter (fun r => r.email == e)).length ≤ 1) ∧
    (∀ r ∈ s.otp_records, r.email = u.email → r.otp ≠ code →
      ∀ now2, verifyOtp s' u.email r.otp now2 =
        .error (.badRequest "Invalid or expired OTP")) := by
  simp only [requestOtp, hu] at h
  by_cases hrole : (u.role == "super_admin") = true
  · rw [if_pos hrole] at h
    injection h with h
    injection h with h1 h2
    have hrec : s'.otp_records
        = s.otp_records.filter (fun r => r.email != u.email) ++
          [{ email := u.email, otp := code, created_at := now,
             expires_at := now + 600, used := false }] := by
      rw [← h1]
    have hone : s'.otp_records.filter (fun r => r.email == u.email)
        = [{ email := u.email, otp := code, created_at := now,
             expires_at := now + 600, used := false }] := by
      rw [hrec, List.filter_append]
      have hk : (s.otp_records.filter (fun r => r.email != u.email)).filter
          (fun r => r.email == u.email) = [] := by
        rw [List.filter_eq_nil_iff]
        intro a ha
        have h3 := (List.mem_filter.mp ha).2
        simp at h3
        simp [h3]
      rw [hk]
      simp
    refine ⟨h2.symm, hone, ?_, ?_, ?_⟩
    · intro e hne
      rw [hrec, List.filter_append]
      have hnew : (([{ email := u.email, otp := code, created_at := now,
                       expires_at := now + 600,
                       used := false }] : List OTPRecord)).filter
          (fun r => r.email == e) = [] := by
        simp [beq_eq_false_iff_ne.mpr (Ne.symm hne)]
      rw [hnew, filter_email_ne s.otp_records u.email e hne]
      simp
    · intro e hcount
      by_cases he : e = u.email
      · subst he
        rw [hone]
        norm_num
      · rw [hrec, List.filter_append]
        have hnew : (([{ email := u.email, otp := code, created_at := now,
                         expires_at := now + 600,
                         used := false }] : List OTPRecord)).filter
            (fun r => r.email == e) = [] := by
          simp [beq_eq_false_iff_ne.mpr (fun hh => he hh.symm)]
        rw [hnew, filter_email_ne s.otp_records u.email e he]
        simpa using hcount
    · intro r hr hre hrc now2
      have hnone : s'.otp_records.find?
          (fun q => q.email == u.email && q.otp == r.otp && (q.used == false))
          = none := by
        rw [hrec, List.find?_eq_none]
        intro x hx
        rcases List.mem_append.mp hx with hx1 | hx2
        · have h3 := (List.mem_filter.mp hx1).2
          simp at h3
          simp [h3]
        · have hx3 : x = { email := u.email, otp := code, created_at := now,
                           expires_at := now + 600,
                           used := false } := by simpa using hx2
          subst hx3
          have h4 : (code == r.otp) = false :=
            beq_eq_false_iff_ne.mpr (fun hh => hrc hh.symm)
          simp [h4]
      simp only [verifyOtp, hnone]
  · rw [if_neg hrole] at h
    simp at h

/-- Claim C7 witness: on `C7S` (old live code 111111) requesting a new OTP
with drawn code 222222 yields `C7S2`, and the theorem makes the old code
fail verification afterwards. -/
theorem C7_single_live_otp_witness :
    requestOtp C7S "a@b" "222222" 1000 = .ok (C7S2, "a@b") ∧
    verifyOtp C7S2 "a@b" "111111" 1001 =
      .error (.badRequest "Invalid or expired OTP") := by
  have hok : requestOtp C7S "a@b" "222222" 1000 = .ok (C7S2, "a@b") := by
    rfl
  refine ⟨hok, ?_⟩
  exact (C7_single_live_otp C7S "a@b" "222222" 1000 C7U C7S2 "a@b"
    (by decide) hok).2.2.2.2 C7old (by decide) (by decide) (by decide) 1001

/-! ## Theorems: claim C8 -/

theorem no_live_after_mark :
    ∀ (l : List OTPRecord) (e c : String),
      (l.filter (fun q => q.email == e)).length ≤ 1 →
      ∀ x ∈ updateFirst (fun q => q.email == e && q.otp == c)
          (fun q => { q with used := true }) l,
        ¬ (x.email == e && x.otp == c && (x.used == false)) = true := by
  intro l
  induction l with
  | nil =>
      intro e c _ x hx
      simp [updateFirst] at hx
  | cons y ys ih =>
      intro e c huniq x hx
      by_cases hy : (y.email == e && y.otp == c) = true
      · rw [updateFirst, if_pos hy] at hx
        have hye : (y.email == e) = true := by
          have h2 := hy
          simp only [Bool.and_eq_true] at h2
          exact h2.1
        have hfe : ys.filter (fun q => q.email == e) = [] := by
          rw [List.filter_cons, if_pos hye] at huniq
          simp only [List.length_cons] at huniq
          have : (ys.filter (fun q => q.email == e)).length = 0 := by omega
          exact List.length_eq_zero.mp this
        rcases List.mem_cons.mp hx with hhead | htail
        · subst hhead
          simp
        · intro hcon
          simp only [Bool.and_eq_true] at hcon
          have hmem : x ∈ ys.filter (fun q => q.email == e) :=
            List.mem_filter.mpr ⟨htail, hcon.1.1⟩
          rw [hfe] at hmem
          exact absurd hmem (List.not_mem_nil x)
      · rw [updateFirst, if_neg hy] at hx
        have huniq2 : (ys.filter (fun q => q.email == e)).length ≤ 1 := by
          rw [List.filter_cons] at huniq
          by_cases hye : (y.email == e) = true
          · rw [if_pos hye] at huniq
            simp only [List.length_cons] at huniq
            omega
          · rwa [if_neg hye] at huniq
        rcases List.mem_cons.mp hx with hhead | htail
        · subst hhead
          intro hcon
          apply hy
          simp only [Bool.and_eq_true] at hcon ⊢
          exact hcon.1
        · exact ih e c huniq2 x htail

/-- Claim C8: once a live, unexpired OTP record matches (email, code), a
short password (< 6 characters) fails with the validation error before any
write, while a successful call overwrites the password hash of the user
resolved from the record's stored email and marks the record used, so a
second `change_password` with the same (email, code) fails with the
invalid-or-expired error at any later time, expired or not.  The
`huniq` hypothesis is the single-record-per-email invariant that
`request_otp` maintains (claim C7). -/
theorem C8_change_password (s : Store) (e c pw : String) (now : Nat)
    (rec0 : OTPRecord)
    (hr : s.otp_records.find?
      (fun q => q.email == e && q.otp == c && (q.used == false)) = some rec0)
    (hexp : ¬ now > rec0.expires_at)
    (huniq : (s.otp_records.filter (fun q => q.email == e)).length ≤ 1) :
    (pw.length < 6 →
      changePassword s e c pw now =
        .error (.badRequest "Password must be at least 6 characters")) ∧
    (∀ s2, changePassword s e c pw now = .ok s2 →
      (∃ u2, s2.users.find? (fun v => v.email == rec0.email) = some u2 ∧
        u2.password_hash = get_password_hash pw) ∧
      (∀ pw2 now2, changePassword s2 e c pw2 now2 =
        .error (.badRequest "Invalid or expired OTP"))) := by
  have hre : rec0.email = e := by
    have hp := List.find?_some hr
    simp only [Bool.and_eq_true, beq_iff_eq] at hp
    exact hp.1.1
  constructor
  · intro hlen
    simp only [changePassword, hr, if_neg hexp, if_pos hlen]
  · intro s2 hok
    simp only [changePassword, hr, if_neg hexp] at hok
    by_cases hlen : pw.length < 6
    · rw [if_pos hlen] at hok
      simp at hok
    · rw [if_neg hlen] at hok
      cases hu : s.users.find? (fun v => v.email == rec0.email) with
      | none =>
          rw [hu] at hok
          simp at hok
      | some u0 =>
          rw [hu] at hok
          injection hok with hok
          subst hok
          constructor
          · exact ⟨_, find?_updateFirst (fun v => v.email == rec0.email)
              (fun v => { v with password_hash := get_password_hash pw })
              (fun a ha => ha) s.users u0 hu, rfl⟩
          · intro pw2 now2
            have hfind : (updateFirst
                (fun q => q.email == rec0.email && q.otp == c)
                (fun q => { q with used := true }) s.otp_records).find?
                (fun q => q.email == e && q.otp == c && (q.used == false))
                = none := by
              rw [hre, List.find?_eq_none]
              exact no_live_after_mark s.otp_records e c huniq
            simp only [changePassword, hfind]

/-- Claim C8 witness: a successful password change on `C8S` yields `C8S2`,
and the theorem makes the immediate second call with the same code fail
with the invalid-or-expired error. -/
theorem C8_change_password_witness :
    changePassword C8S "a@b" "123456" "newpass" 100 = .ok C8S2 ∧
    changePassword C8S2 "a@b" "123456" "other99" 50 =
      .error (.badRequest "Invalid or expired OTP") := by
  have hok : changePassword C8S "a@b" "123456" "newpass" 100 = .ok C8S2 := by
    rfl
  exact ⟨hok, ((C8_change_password C8S "a@b" "123456" "newpass" 100 C8rec
    (by decide) (by decide) (by decide)).2 C8S2 hok).2 "other99" 50⟩

/-! ## Theorems: claim C4 -/

theorem sum_replicate_six (R : ℚ) : (List.replicate 6 R).sum = 6 * R := by
  show ([R, R, R, R, R, R] : List ℚ).sum = 6 * R
  simp [List.sum_cons]
  ring

theorem weightedAvg_replicate (R : ℚ) : weightedAvg (List.replicate 6 R) = R := by
  show weightedAvg [R, R, R, R, R, R] = R
  rw [weightedAvg, forecastWeights]
  norm_num [List.zipWith, List.sum_cons]
  ring_nf

theorem idxList_six : idxList 6 = [0, 1, 2, 3, 4, 5] := by
  have h : List.range 6 = [0, 1, 2, 3, 4, 5] := by decide
  rw [idxList, h]
  norm_num

theorem slopeOf_replicate (R : ℚ) : slopeOf (List.replicate 6 R) = 0 := by
  show slopeOf [R, R, R, R, R, R] = 0
  rw [slopeOf]
  rw [show ([R, R, R, R, R, R] : List ℚ).length = 6 from rfl, idxList_six]
  norm_num [List.zipWith, List.sum_cons]
  ring_nf

theorem interceptOf_replicate (R : ℚ) : interceptOf (List.replicate 6 R) = R := by
  have hs : slopeOf (List.replicate 6 R) = 0 := slopeOf_replicate R
  rw [interceptOf, hs, sum_replicate_six]
  rw [show (List.replicate 6 R).length = 6 from rfl, idxList_six]
  norm_num

theorem meanOf_replicate (R : ℚ) : meanOf (List.replicate 6 R) = R := by
  show meanOf [R, R, R, R, R, R] = R
  rw [meanOf,
    if_neg (by norm_num : ¬ ([R, R, R, R, R, R] : List ℚ).length = 0)]
  simp [List.sum_cons]
  ring

theorem varianceOf_replicate (R : ℚ) : varianceOf (List.replicate 6 R) = 0 := by
  have hm : meanOf [R, R, R, R, R, R] = R := meanOf_replicate R
  show varianceOf [R, R, R, R, R, R] = 0
  rw [varianceOf,
    if_pos (by norm_num : 1 < ([R, R, R, R, R, R] : List ℚ).length), hm]
  simp

theorem confidenceOf_replicate (R : ℚ) (hR : 0 < R) :
    confidenceOf (List.replicate 6 R) = "high" := by
  rw [confidenceOf, meanOf_replicate, varianceOf_replicate, if_pos hR,
    if_pos (by nlinarith [mul_pos hR hR] : (10000 : ℚ) * 0 < 400 * (R * R))]

theorem forecastCore_replicate (R : ℚ) (hR : 0 < R) (k : ℕ) :
    (forecastCore (List.replicate 6 ⟨R, k⟩)).predicted_revenue = round2 R ∧
    (forecastCore (List.replicate 6 ⟨R, k⟩)).confidence = "high" := by
  have hmap : (List.replicate 6 (⟨R, k⟩ : MonthBucket)).map (fun b => b.revenue)
      = List.replicate 6 R := by
    simp [List.map_replicate]
  have hne : ¬ (List.replicate 6 R).sum = 0 := by
    rw [sum_replicate_six]
    intro hc
    nlinarith
  constructor
  · show (forecastCore (List.replicate 6 ⟨R, k⟩)).predicted_revenue = round2 R
    simp only [forecastCore, hmap]
    rw [if_neg hne]
    simp only [interceptOf_replicate, slopeOf_replicate, weightedAvg_replicate]
    rw [show R + 0 * 6 = R from by ring, if_pos hR,
      show (6/10 : ℚ) * R + (4/10) * R = R from by ring,
      max_eq_right hR.le]
  · simp only [forecastCore, hmap]
    rw [if_neg hne]
    exact confidenceOf_replicate R hR

/-- Claim C4 counterexample: six identical buckets of revenue R = 1/250
(0.004) give predicted_revenue = round(0.004, 2) = 0, not R. -/
theorem C4_forecast_cex :
    (0 : ℚ) < 1/250 ∧
    (forecastCore (List.replicate 6 ⟨1/250, 1⟩)).predicted_revenue = 0 ∧
    (forecastCore (List.replicate 6 ⟨1/250, 1⟩)).predicted_revenue ≠ 1/250 := by
  have h := (forecastCore_replicate (1/250) (by norm_num) 1).1
  have hr2 : round2 (1/250 : ℚ) = 0 := by norm_num [round2, roundHalfEven]
  refine ⟨by norm_num, ?_, ?_⟩
  · rw [h, hr2]
  · rw [h, hr2]
    norm_num

/-- Claim C4 (amended): over six monthly buckets all of revenue R > 0 the
forecast has regression slope 0, weighted average R, regression forecast R
(so the 0.6/0.4 combination is R); the returned `predicted_revenue` is
round(R, 2) — equal to R whenever R has at most two decimal places — and
`confidence` is "high" (coefficient of variation 0 < 20).  (The unrounded
claim `predicted_revenue == R` fails for R below half a cent, see the
counterexample.) -/
theorem C4_forecast (R : ℚ) (hR : 0 < R) (k : ℕ) :
    slopeOf (List.replicate 6 R) = 0 ∧
    weightedAvg (List.replicate 6 R) = R ∧
    interceptOf (List.replicate 6 R) + slopeOf (List.replicate 6 R) * 6 = R ∧
    (forecastCore (List.replicate 6 ⟨R, k⟩)).predicted_revenue = round2 R ∧
    (forecastCore (List.replicate 6 ⟨R, k⟩)).confidence = "high" :=
  ⟨slopeOf_replicate R, weightedAvg_replicate R,
   by rw [interceptOf_replicate, slopeOf_replicate]; ring,
   (forecastCore_replicate R hR k).1, (forecastCore_replicate R hR k).2⟩

/-- Claim C4 witness: at R = 100 the amended theorem gives slope 0, weighted
average 100, regression forecast 100, predicted revenue round(100, 2), and
high confidence. -/
theorem C4_forecast_witness :
    slopeOf (List.replicate 6 (100 : ℚ)) = 0 ∧
    weightedAvg (List.replicate 6 (100 : ℚ)) = 100 ∧
    interceptOf (List.replicate 6 (100 : ℚ))
      + slopeOf (List.replicate 6 (100 : ℚ)) * 6 = 100 ∧
    (forecastCore (List.replicate 6 ⟨100, 3⟩)).predicted_revenue = round2 100 ∧
    (forecastCore (List.replicate 6 ⟨100, 3⟩)).confidence = "high" :=
  C4_forecast 100 (by norm_num) 3

/-- Claim C10 witness: the owned property in `C10S` makes the endpoint hit
the unhandled `TypeError` branch. -/
theorem C10_owned_property_revenue_witness :
    getPropertyRevenue C10S "p9" 2025 3 = .error .unhandledTypeError :=
  C10_owned_property_revenue C10S "p9" 2025 3
    { id := "p9", hotel_name := "Own", location := "Pune",
      gst_number := "G9", ownership_type := "our_property",
      revenue_share_percentage := none,
      payment_cycle := "monthly", active := true,
      status := "active", archived_at := none }
    (by simp [C10S]) rfl

end Nirvaana
